import Mathlib

/- Verification of the Iteration History & Orchestration Engine of the
   GameMulti-Agent repository.  The engine package (GameAgent.models and
   GameAgent.orchestrator) is not part of the published sources, so its data
   model and operations are modelled from the specification; the command-line
   layer (main.py) and the example scripts are embedded from the sources
   directly.  Field and operation names follow the repository where they are
   visible (iterative_development.py shows the constructors and field names
   of the engine's entities). -/

inductive GameGenre
  | arcade
  | puzzle
  | platformer
  | rpg
  | adventure
  deriving DecidableEq

inductive GamePlatform
  | pygame
  | terminal
  deriving DecidableEq

inductive DifficultyLevel
  | easy
  | medium
  | hard
  deriving DecidableEq

/-- Modelled from the spec: the immutable user requirement (description,
optional genre, platform, optional target audience, extra features). -/
structure UserRequirement where
  description : String
  genre : Option GameGenre
  platform : GamePlatform
  target_audience : Option String
  additional_features : List String
  deriving DecidableEq

/-- Modelled from the spec: one game mechanic of a design artifact. -/
structure GameMechanic where
  name : String
  description : String
  implementation_notes : String
  deriving DecidableEq

/-- Modelled from the spec: the design artifact produced by the Designer. -/
structure GameDesignDocument where
  title : String
  genre : GameGenre
  concept : String
  mechanics : List GameMechanic
  controls : List (String × String)
  win_conditions : List String
  lose_conditions : List String
  difficulty : DifficultyLevel
  deriving DecidableEq

/-- Modelled from the spec: one source file of a code artifact. -/
structure CodeFile where
  filename : String
  content : String
  deriving DecidableEq

/-- Modelled from the spec: the code artifact produced by the Developer. -/
structure GameCode where
  files : List CodeFile
  main_file : String
  dependencies : List String
  deriving DecidableEq

/-- Modelled from the spec: the play-test result produced by the Player. -/
structure PlaySession where
  session_id : String
  duration_seconds : Nat
  completed : Bool
  score : Int
  bugs_found : List String
  suggestions : List String
  observations : List String
  deriving DecidableEq

/-- Modelled from the spec: the review produced by the Reviewer; the
ready_for_delivery flag is the convergence signal of the round loop. -/
structure GameReview where
  overall_score : Nat
  must_fix : List String
  should_fix : List String
  strengths : List String
  weaknesses : List String
  summary : String
  ready_for_delivery : Bool
  deriving DecidableEq

/-- Modelled from the spec: the recorded state of one round. -/
structure IterationSnapshot where
  iteration : Nat
  design_document : Option GameDesignDocument
  game_code : Option GameCode
  play_session : Option PlaySession
  review : Option GameReview
  bugs_found : List String
  player_suggestions : List String
  improvements_needed : List String
  deriving DecidableEq

/-- Modelled from the spec: the cumulative history, holding the original
requirement, the ordered snapshots and the four derived feedback sets. -/
structure IterationHistory where
  original_requirement : UserRequirement
  snapshots : List IterationSnapshot
  all_bugs : List String
  all_improvements : List String
  all_suggestions : List String
  fixed_issues : List String
  deriving DecidableEq

/-- Modelled from the spec: the error taxonomy of the history engine. -/
inductive HistoryError
  | sequenceError
  | consistencyError
  | formatError
  | notFoundError
  deriving DecidableEq

/-- Append to an accumulator the members of a list that are not yet present,
keeping first-occurrence order: the engine's de-duplicated union. -/
def dedupExtend (acc : List String) (xs : List String) : List String :=
  xs.foldl (fun a x => if x ∈ a then a else a ++ [x]) acc

/-- Order-preserving list difference: keep the members of the first list that
are absent from the second. -/
def listDiff (xs ys : List String) : List String :=
  xs.filter (fun x => x ∉ ys)

/-- The raw feedback items of one round: its bug list and improvement list. -/
def snapItems (s : IterationSnapshot) : List String :=
  s.bugs_found ++ s.improvements_needed

/-- Modelled from the spec: a fresh history with no snapshots and empty
derived sets. -/
def newHistory (req : UserRequirement) : IterationHistory :=
  { original_requirement := req
    snapshots := []
    all_bugs := []
    all_improvements := []
    all_suggestions := []
    fixed_issues := [] }

/-- Modelled from the spec: add_iteration rejects a snapshot whose round
index is not the next contiguous one, otherwise appends it and recomputes
the derived sets: the three unions are extended with the new round's lists,
and fixed_issues becomes the items of the earlier rounds that are absent
from the new round's raw bug/improvement lists (fix inferred by absence;
an item that reappears verbatim is dropped from fixed_issues). -/
def IterationHistory.add_iteration (h : IterationHistory)
    (s : IterationSnapshot) : Except HistoryError IterationHistory :=
  if s.iteration = h.snapshots.length + 1 then
    Except.ok
      { original_requirement := h.original_requirement
        snapshots := h.snapshots ++ [s]
        all_bugs := dedupExtend h.all_bugs s.bugs_found
        all_improvements := dedupExtend h.all_improvements s.improvements_needed
        all_suggestions := dedupExtend h.all_suggestions s.player_suggestions
        fixed_issues :=
          listDiff (dedupExtend h.all_bugs h.all_improvements) (snapItems s) }
  else Except.error HistoryError.sequenceError

/-- Modelled from the spec: the context bundle handed to the next round's
agents. -/
structure IterationContext where
  original_requirement : UserRequirement
  baseline_design : Option GameDesignDocument
  baseline_code : Option GameCode
  pending_bugs : List String
  pending_improvements : List String
  suggestions : List String
  fixed_issues : List String
  deriving DecidableEq

/-- Modelled from the spec: get_iteration_context returns the original
requirement, the baseline design/code taken from Snapshot #1 when it exists,
the pending sets (unions minus fixed_issues), the suggestions and the
resolved set. -/
def IterationHistory.get_iteration_context (h : IterationHistory) :
    IterationContext :=
  { original_requirement := h.original_requirement
    baseline_design := h.snapshots.head?.bind (fun s => s.design_document)
    baseline_code := h.snapshots.head?.bind (fun s => s.game_code)
    pending_bugs := listDiff h.all_bugs h.fixed_issues
    pending_improvements := listDiff h.all_improvements h.fixed_issues
    suggestions := h.all_suggestions
    fixed_issues := h.fixed_issues }

/-- Replay a list of snapshots onto a history through add_iteration,
stopping at the first failure. -/
def buildFrom (h : IterationHistory) :
    List IterationSnapshot → Except HistoryError IterationHistory
  | [] => Except.ok h
  | s :: rest =>
    match h.add_iteration s with
    | Except.ok h2 => buildFrom h2 rest
    | Except.error e => Except.error e

/-- Build a history from scratch by appending the given snapshots in order. -/
def buildHistory (req : UserRequirement) (ss : List IterationSnapshot) :
    Except HistoryError IterationHistory :=
  buildFrom (newHistory req) ss

/-- Modelled from the spec: the persisted history file holds a schema-version
marker, the original requirement and the ordered snapshots — the derived
sets are never persisted. -/
structure PersistedHistoryFile where
  schema_version : Nat
  original_requirement : UserRequirement
  snapshots : List IterationSnapshot
  deriving DecidableEq

def schemaVersion : Nat := 1

/-- Modelled from the spec: save serializes only the requirement and the
snapshot sequence, with the current schema-version marker. -/
def IterationHistory.save (h : IterationHistory) : PersistedHistoryFile :=
  { schema_version := schemaVersion
    original_requirement := h.original_requirement
    snapshots := h.snapshots }

/-- Modelled from the spec: load checks the schema version and reconstructs
the derived sets deterministically by replaying the snapshot sequence. -/
def IterationHistory.load (file : PersistedHistoryFile) :
    Except HistoryError IterationHistory :=
  if file.schema_version = schemaVersion then
    match buildHistory file.original_requirement file.snapshots with
    | Except.ok h => Except.ok h
    | Except.error _ => Except.error HistoryError.formatError
  else Except.error HistoryError.formatError

/-- Modelled from the spec: the states of the orchestrator's round state
machine. -/
inductive LoopState
  | roundStart
  | design
  | develop
  | playtest
  | review
  | checkStop
  | done
  | failed
  deriving DecidableEq

/-- Modelled from the spec: the CHECK_STOP transition — DONE iff the round's
review set ready_for_delivery or the round index reached the configured
maximum, otherwise ROUND_START for the next round. -/
def checkStop (ready : Bool) (round maxIter : Nat) : LoopState :=
  if ready = true ∨ maxIter ≤ round then LoopState.done else LoopState.roundStart

/-- Modelled from the spec: run the round loop starting at the given round.
The oracle gives, for each round index, none when a collaborator stage of
that round fails (the run transitions to FAILED) and some flag when the
round completes with a review whose ready_for_delivery equals the flag.
The fuel argument bounds the recursion; the driver below supplies enough
fuel that it never runs out before CHECK_STOP sends the loop to DONE. -/
def loopRun (rounds : Nat → Option Bool) (maxIter : Nat) :
    Nat → Nat → Nat × LoopState
  | r, 0 => (r, LoopState.failed)
  | r, fuel + 1 =>
    match rounds r with
    | none => (r, LoopState.failed)
    | some ready =>
      if checkStop ready r maxIter = LoopState.done then (r, LoopState.done)
      else loopRun rounds maxIter (r + 1) fuel

/-- Modelled from the spec: drive the loop from round 1 up to the configured
maximum, returning the last executed round and the terminal state. -/
def developLoop (rounds : Nat → Option Bool) (maxIter : Nat) :
    Nat × LoopState :=
  loopRun rounds maxIter 1 maxIter

/-- Modelled from the spec: develop returns the final code artifact, the
final review and the complete history — a triple. -/
def developReturnArity : Nat := 3

/-- From the sources: every call site that destructures the result of
develop_game, with the number of names it destructures into.
main.py line 129 (create), line 178 (demo), line 225 (resume);
examples/iterative_development.py lines 95 and 151;
examples/simple_game.py line 46; examples/custom_agents.py line 59. -/
def developCallSites : List (String × Nat) :=
  [("main.py:create", 3),
   ("main.py:demo", 3),
   ("main.py:resume", 3),
   ("examples/iterative_development.py:develop_new_game", 3),
   ("examples/iterative_development.py:resume_from_history", 3),
   ("examples/simple_game.py:create_snake_game", 2),
   ("examples/custom_agents.py:create_with_custom_config", 2)]

/-- A Python tuple unpack succeeds exactly when the number of target names
equals the arity of the tuple. -/
def unpackOk (tupleArity names : Nat) : Bool :=
  tupleArity = names

/-- The Python exceptions that appear in main.py's handlers.  The class
hierarchy fact that drives the handler semantics below: ValueError and
RuntimeError derive Exception, typer.Exit derives click.exceptions.Exit
which derives RuntimeError (hence Exception), while KeyboardInterrupt
derives only BaseException, not Exception. -/
inductive PyExc
  | valueError
  | keyboardInterrupt
  | typerExit (code : Nat)
  | otherError
  deriving DecidableEq

/-- Whether an exception is caught by an `except Exception` clause. -/
def pyIsException : PyExc → Bool
  | PyExc.keyboardInterrupt => false
  | _ => true

/-- Exit code when an exception escapes every handler: typer's runtime turns
an uncaught typer.Exit into its own code; any other escape is fatal. -/
def pyUncaughtExit : PyExc → Nat
  | PyExc.typerExit c => c
  | PyExc.keyboardInterrupt => 130
  | _ => 1

/-- From main.py lines 140-151: the create command's handler chain —
except ValueError exits 1, except KeyboardInterrupt exits 0, except
Exception exits 1. -/
def handleCreateExc (e : PyExc) : Nat :=
  if e = PyExc.valueError then 1
  else if e = PyExc.keyboardInterrupt then 0
  else if pyIsException e then 1
  else pyUncaughtExit e

/-- From main.py lines 233-237: the resume command's handler chain —
except KeyboardInterrupt prints and falls through (exit 0), except
Exception prints the error and raises typer.Exit(1). -/
def handleResumeExc (e : PyExc) : Nat :=
  if e = PyExc.keyboardInterrupt then 0
  else if pyIsException e then 1
  else pyUncaughtExit e

/-- The observable outcome of one CLI command run: its exit code and whether
IterationHistory.load was invoked. -/
structure CommandRun where
  exitCode : Nat
  loadCalled : Bool
  deriving DecidableEq

/-- The ways a resume run can unfold once inside the try block. -/
inductive ResumeScenario
  | declined
  | interrupted
  | developError
  | success
  deriving DecidableEq

/-- From main.py lines 192-237: the resume command.  If the history file does
not exist it prints an error and raises typer.Exit(1) before the try block,
so load is never reached.  Otherwise load runs first inside the try; a
declined confirmation raises typer.Exit(0) inside the try (line 219), and
that exception reaches the handler chain because typer.Exit derives
RuntimeError; a KeyboardInterrupt or a development error likewise reach the
handler chain; a completed run falls through with exit code 0. -/
def resumeCommand (fileExists : Bool) (sc : ResumeScenario) : CommandRun :=
  if fileExists = false then { exitCode := 1, loadCalled := false }
  else
    match sc with
    | ResumeScenario.declined =>
      { exitCode := handleResumeExc (PyExc.typerExit 0), loadCalled := true }
    | ResumeScenario.interrupted =>
      { exitCode := handleResumeExc PyExc.keyboardInterrupt, loadCalled := true }
    | ResumeScenario.developError =>
      { exitCode := handleResumeExc PyExc.otherError, loadCalled := true }
    | ResumeScenario.success =>
      { exitCode := 0, loadCalled := true }

/-- From main.py lines 116-119: in the create command a declined
confirmation raises typer.Exit(0) outside the try block, so it propagates
to typer's runtime and the process exits 0. -/
def createDeclinedExitCode : Nat := pyUncaughtExit (PyExc.typerExit 0)

/-- Modelled from the spec: on resume, develop validates that the passed-in
requirement is identical to the history's stored requirement and fails with
a ConsistencyError on mismatch. -/
def validateResumeRequirement (requirement : UserRequirement)
    (resume_from : IterationHistory) : Except HistoryError Unit :=
  if requirement = resume_from.original_requirement then Except.ok ()
  else Except.error HistoryError.consistencyError

/-- From main.py line 226: the resume command passes the loaded history's
own original_requirement as the requirement argument of develop_game. -/
def resumeRequirementArgument (history : IterationHistory) : UserRequirement :=
  history.original_requirement

/-- The requirement of the iteration-context demo in
examples/iterative_development.py. -/
def demoRequirement : UserRequirement :=
  { description := "A puzzle game where you match colors"
    genre := some GameGenre.puzzle
    platform := GamePlatform.pygame
    target_audience := none
    additional_features := [] }

/-- A round snapshot carrying only a bug list, for the feedback scenarios. -/
def bugSnapshot (i : Nat) (bugs : List String) : IterationSnapshot :=
  { iteration := i
    design_document := none
    game_code := none
    play_session := none
    review := none
    bugs_found := bugs
    player_suggestions := []
    improvements_needed := [] }

/-- A round snapshot carrying only a design, for the baseline scenario. -/
def designSnapshot (i : Nat) (d : GameDesignDocument) : IterationSnapshot :=
  { iteration := i
    design_document := some d
    game_code := none
    play_session := none
    review := none
    bugs_found := []
    player_suggestions := []
    improvements_needed := [] }

def designOne : GameDesignDocument :=
  { title := "Color Match"
    genre := GameGenre.puzzle
    concept := "Match 3 colors in a row"
    mechanics := []
    controls := [("CLICK", "Select tile")]
    win_conditions := ["Clear all tiles"]
    lose_conditions := ["No moves left"]
    difficulty := DifficultyLevel.easy }

def designTwo : GameDesignDocument :=
  { title := "Color Match Deluxe"
    genre := GameGenre.puzzle
    concept := "Refined matching with combos"
    mechanics := []
    controls := [("CLICK", "Select tile")]
    win_conditions := ["Clear all tiles"]
    lose_conditions := ["No moves left"]
    difficulty := DifficultyLevel.medium }

/-- The history after round 1 reported bugs A and B. -/
def histRound1 : IterationHistory :=
  { original_requirement := demoRequirement
    snapshots := [bugSnapshot 1 ["A", "B"]]
    all_bugs := ["A", "B"]
    all_improvements := []
    all_suggestions := []
    fixed_issues := [] }

/-- The history after round 1 reported bugs A and B and round 2 only B. -/
def histRound2 : IterationHistory :=
  { original_requirement := demoRequirement
    snapshots := [bugSnapshot 1 ["A", "B"], bugSnapshot 2 ["B"]]
    all_bugs := ["A", "B"]
    all_improvements := []
    all_suggestions := []
    fixed_issues := ["A"] }

/-- A two-round history whose rounds carry different designs. -/
def histDesigns : IterationHistory :=
  { original_requirement := demoRequirement
    snapshots := [designSnapshot 1 designOne, designSnapshot 2 designTwo]
    all_bugs := []
    all_improvements := []
    all_suggestions := []
    fixed_issues := [] }

theorem mem_dedupExtend (x : String) :
    ∀ (xs acc : List String), x ∈ dedupExtend acc xs ↔ x ∈ acc ∨ x ∈ xs := by
  intro xs
  induction xs with
  | nil =>
    intro acc
    simp [dedupExtend]
  | cons y ys ih =>
    intro acc
    have hstep : dedupExtend acc (y :: ys)
        = dedupExtend (if y ∈ acc then acc else acc ++ [y]) ys := rfl
    rw [hstep, ih]
    by_cases hy : y ∈ acc
    · simp only [if_pos hy, List.mem_cons]
      constructor
      · intro h
        rcases h with h | h
        · exact Or.inl h
        · exact Or.inr (Or.inr h)
      · intro h
        rcases h with h | h | h
        · exact Or.inl h
        · subst h
          exact Or.inl hy
        · exact Or.inr h
    · simp only [if_neg hy, List.mem_append, List.mem_cons, List.mem_singleton]
      tauto

theorem mem_listDiff (x : String) (xs ys : List String) :
    x ∈ listDiff xs ys ↔ x ∈ xs ∧ x ∉ ys := by
  simp [listDiff]

theorem add_iteration_ok (h : IterationHistory) (s : IterationSnapshot)
    (h2 : IterationHistory) (hok : h.add_iteration s = Except.ok h2) :
    s.iteration = h.snapshots.length + 1 ∧
    h2 = { original_requirement := h.original_requirement
           snapshots := h.snapshots ++ [s]
           all_bugs := dedupExtend h.all_bugs s.bugs_found
           all_improvements := dedupExtend h.all_improvements s.improvements_needed
           all_suggestions := dedupExtend h.all_suggestions s.player_suggestions
           fixed_issues :=
             listDiff (dedupExtend h.all_bugs h.all_improvements) (snapItems s) } := by
  by_cases hc : s.iteration = h.snapshots.length + 1
  · refine ⟨hc, ?_⟩
    unfold IterationHistory.add_iteration at hok
    rw [if_pos hc] at hok
    simp only [Except.ok.injEq] at hok
    exact hok.symm
  · unfold IterationHistory.add_iteration at hok
    rw [if_neg hc] at hok
    simp at hok

theorem buildFrom_ok (ss : List IterationSnapshot) :
    ∀ (h h2 : IterationHistory), buildFrom h ss = Except.ok h2 →
    h2.original_requirement = h.original_requirement ∧
    h2.snapshots = h.snapshots ++ ss ∧
    (∀ x, x ∈ h2.all_bugs ↔ x ∈ h.all_bugs ∨ ∃ t ∈ ss, x ∈ t.bugs_found) ∧
    (∀ x, x ∈ h2.all_improvements ↔
      x ∈ h.all_improvements ∨ ∃ t ∈ ss, x ∈ t.improvements_needed) ∧
    (∀ x, x ∈ h2.all_suggestions ↔
      x ∈ h.all_suggestions ∨ ∃ t ∈ ss, x ∈ t.player_suggestions) ∧
    h2.snapshots.map IterationSnapshot.iteration
      = h.snapshots.map IterationSnapshot.iteration
        ++ List.range' (h.snapshots.length + 1) ss.length := by
  induction ss with
  | nil =>
    intro h h2 hok
    simp only [buildFrom, Except.ok.injEq] at hok
    subst hok
    simp
  | cons s rest ih =>
    intro h h2 hok
    simp only [buildFrom] at hok
    cases hadd : h.add_iteration s with
    | error e =>
      rw [hadd] at hok
      simp at hok
    | ok h1 =>
      rw [hadd] at hok
      obtain ⟨hiter, hrec⟩ := add_iteration_ok h s h1 hadd
      obtain ⟨ihreq, ihsnaps, ihbugs, ihimps, ihsugs, ihmap⟩ := ih h1 h2 hok
      have h1req : h1.original_requirement = h.original_requirement := by
        rw [hrec]
      have h1snaps : h1.snapshots = h.snapshots ++ [s] := by
        rw [hrec]
      have h1bugs : ∀ x, x ∈ h1.all_bugs ↔ x ∈ h.all_bugs ∨ x ∈ s.bugs_found := by
        intro x
        rw [hrec]
        exact mem_dedupExtend x s.bugs_found h.all_bugs
      have h1imps : ∀ x, x ∈ h1.all_improvements ↔
          x ∈ h.all_improvements ∨ x ∈ s.improvements_needed := by
        intro x
        rw [hrec]
        exact mem_dedupExtend x s.improvements_needed h.all_improvements
      have h1sugs : ∀ x, x ∈ h1.all_suggestions ↔
          x ∈ h.all_suggestions ∨ x ∈ s.player_suggestions := by
        intro x
        rw [hrec]
        exact mem_dedupExtend x s.player_suggestions h.all_suggestions
      refine ⟨by rw [ihreq, h1req], ?_, ?_, ?_, ?_, ?_⟩
      · rw [ihsnaps, h1snaps]
        simp
      · intro x
        rw [ihbugs x]
        rw [h1bugs x]
        simp only [List.mem_cons]
        constructor
        · intro hx
          rcases hx with (hx | hx) | ⟨t, ht, hxt⟩
          · exact Or.inl hx
          · exact Or.inr ⟨s, Or.inl rfl, hx⟩
          · exact Or.inr ⟨t, Or.inr ht, hxt⟩
        · intro hx
          rcases hx with hx | ⟨t, ht | ht, hxt⟩
          · exact Or.inl (Or.inl hx)
          · subst ht
            exact Or.inl (Or.inr hxt)
          · exact Or.inr ⟨t, ht, hxt⟩
      · intro x
        rw [ihimps x]
        rw [h1imps x]
        simp only [List.mem_cons]
        constructor
        · intro hx
          rcases hx with (hx | hx) | ⟨t, ht, hxt⟩
          · exact Or.inl hx
          · exact Or.inr ⟨s, Or.inl rfl, hx⟩
          · exact Or.inr ⟨t, Or.inr ht, hxt⟩
        · intro hx
          rcases hx with hx | ⟨t, ht | ht, hxt⟩
          · exact Or.inl (Or.inl hx)
          · subst ht
            exact Or.inl (Or.inr hxt)
          · exact Or.inr ⟨t, ht, hxt⟩
      · intro x
        rw [ihsugs x]
        rw [h1sugs x]
        simp only [List.mem_cons]
        constructor
        · intro hx
          rcases hx with (hx | hx) | ⟨t, ht, hxt⟩
          · exact Or.inl hx
          · exact Or.inr ⟨s, Or.inl rfl, hx⟩
          · exact Or.inr ⟨t, Or.inr ht, hxt⟩
        · intro hx
          rcases hx with hx | ⟨t, ht | ht, hxt⟩
          · exact Or.inl (Or.inl hx)
          · subst ht
            exact Or.inl (Or.inr hxt)
          · exact Or.inr ⟨t, ht, hxt⟩
      · rw [ihmap]
        have hmap1 : h1.snapshots.map IterationSnapshot.iteration
            = h.snapshots.map IterationSnapshot.iteration ++ [s.iteration] := by
          rw [h1snaps]
          simp
        have hlen1 : h1.snapshots.length = h.snapshots.length + 1 := by
          rw [h1snaps]
          simp
        rw [hmap1, hlen1, hiter]
        rw [List.append_assoc]
        congr 1

theorem buildFrom_append_ok (l2 : List IterationSnapshot) :
    ∀ (l1 : List IterationSnapshot) (h h2 : IterationHistory),
    buildFrom h (l1 ++ l2) = Except.ok h2 →
    ∃ hm, buildFrom h l1 = Except.ok hm ∧ buildFrom hm l2 = Except.ok h2 := by
  intro l1
  induction l1 with
  | nil =>
    intro h h2 hok
    exact ⟨h, rfl, by simpa using hok⟩
  | cons s rest ih =>
    intro h h2 hok
    rw [List.cons_append] at hok
    simp only [buildFrom] at hok ⊢
    cases hadd : h.add_iteration s with
    | error e =>
      rw [hadd] at hok
      simp at hok
    | ok h1 =>
      rw [hadd] at hok
      exact ih h1 h2 hok

theorem buildFrom_single_ok (h hm : IterationHistory) (s : IterationSnapshot)
    (hok : buildFrom h [s] = Except.ok hm) :
    h.add_iteration s = Except.ok hm := by
  simp only [buildFrom] at hok
  cases hadd : h.add_iteration s with
  | error e =>
    rw [hadd] at hok
    simp at hok
  | ok h1 =>
    rw [hadd] at hok
    simpa using hok

/-- Claim C1: for every history, the context returned by
get_iteration_context has pending_bugs equal to the set difference of
all_bugs minus fixed_issues, and pending_improvements equal to
all_improvements minus fixed_issues. -/
theorem pending_sets_are_set_differences (h : IterationHistory) (x : String) :
    (x ∈ h.get_iteration_context.pending_bugs ↔
      x ∈ h.all_bugs ∧ x ∉ h.fixed_issues) ∧
    (x ∈ h.get_iteration_context.pending_improvements ↔
      x ∈ h.all_improvements ∧ x ∉ h.fixed_issues) := by
  constructor
  · exact mem_listDiff x h.all_bugs h.fixed_issues
  · exact mem_listDiff x h.all_improvements h.fixed_issues

/-- Claim C3: for every history built by appending snapshots, saving it and
loading the persisted file reproduces the very same history — in particular
identical all_bugs, all_improvements, all_suggestions and fixed_issues —
because load recomputes the derived sets by replaying the persisted snapshot
sequence (the persisted file holds only the requirement and the snapshots). -/
theorem save_load_round_trip (req : UserRequirement)
    (ss : List IterationSnapshot) (h : IterationHistory)
    (hok : buildHistory req ss = Except.ok h) :
    IterationHistory.load h.save = Except.ok h := by
  obtain ⟨hreq, hsnaps, _⟩ := buildFrom_ok ss (newHistory req) h hok
  have hreq2 : h.original_requirement = req := by
    simpa [newHistory] using hreq
  have hsnaps2 : h.snapshots = ss := by
    simpa [newHistory] using hsnaps
  simp [IterationHistory.load, IterationHistory.save, hreq2, hsnaps2, hok]

/-- Witness for C3: the two-round history of the feedback scenario survives
a save-then-load round trip unchanged. -/
theorem save_load_round_trip_witness :
    IterationHistory.load histRound2.save = Except.ok histRound2 :=
  save_load_round_trip demoRequirement
    [bugSnapshot 1 ["A", "B"], bugSnapshot 2 ["B"]] histRound2 (by rfl)

/-- Claim C4: for every history with at least one snapshot, the context's
baseline_design and baseline_code come from Snapshot #1 whatever the later
rounds contain, and for a history with no snapshots they are absent. -/
theorem baseline_always_first_snapshot :
    (∀ (req : UserRequirement) (s : IterationSnapshot)
      (rest : List IterationSnapshot) (h : IterationHistory),
      buildHistory req (s :: rest) = Except.ok h →
      h.get_iteration_context.baseline_design = s.design_document ∧
      h.get_iteration_context.baseline_code = s.game_code) ∧
    (∀ h : IterationHistory, h.snapshots = [] →
      h.get_iteration_context.baseline_design = none ∧
      h.get_iteration_context.baseline_code = none) := by
  constructor
  · intro req s rest h hok
    obtain ⟨_, hsnaps, _⟩ := buildFrom_ok (s :: rest) (newHistory req) h hok
    have hs2 : h.snapshots = s :: rest := by
      simpa [newHistory] using hsnaps
    constructor
    · simp [IterationHistory.get_iteration_context, hs2]
    · simp [IterationHistory.get_iteration_context, hs2]
  · intro h hempty
    constructor
    · simp [IterationHistory.get_iteration_context, hempty]
    · simp [IterationHistory.get_iteration_context, hempty]

/-- Witness for C4: in the two-round history whose rounds carry different
designs, the context's baseline design and code are those of round 1. -/
theorem baseline_always_first_snapshot_witness :
    histDesigns.get_iteration_context.baseline_design
        = (designSnapshot 1 designOne).design_document ∧
    histDesigns.get_iteration_context.baseline_code
        = (designSnapshot 1 designOne).game_code :=
  baseline_always_first_snapshot.1 demoRequirement (designSnapshot 1 designOne)
    [designSnapshot 2 designTwo] histDesigns (by rfl)

/-- Claim C5: add_iteration fails with a SequenceError exactly when the
snapshot's round index differs from len(snapshots)+1 and otherwise appends
the snapshot, and consequently every history built by appends has round
indices exactly 1..len(snapshots), without gaps or duplicates. -/
theorem add_iteration_contiguity :
    (∀ (h : IterationHistory) (s : IterationSnapshot),
      s.iteration ≠ h.snapshots.length + 1 →
      h.add_iteration s = Except.error HistoryError.sequenceError) ∧
    (∀ (h : IterationHistory) (s : IterationSnapshot),
      s.iteration = h.snapshots.length + 1 →
      ∃ h2, h.add_iteration s = Except.ok h2 ∧
        h2.snapshots = h.snapshots ++ [s]) ∧
    (∀ (req : UserRequirement) (ss : List IterationSnapshot)
      (h : IterationHistory), buildHistory req ss = Except.ok h →
      h.snapshots.map IterationSnapshot.iteration
        = List.range' 1 h.snapshots.length) := by
  refine ⟨?_, ?_, ?_⟩
  · intro h s hne
    unfold IterationHistory.add_iteration
    rw [if_neg hne]
  · intro h s heq
    unfold IterationHistory.add_iteration
    rw [if_pos heq]
    exact ⟨_, rfl, rfl⟩
  · intro req ss h hok
    obtain ⟨_, hsnaps, _, _, _, hmap⟩ := buildFrom_ok ss (newHistory req) h hok
    have hs2 : h.snapshots = ss := by
      simpa [newHistory] using hsnaps
    have hlen : h.snapshots.length = ss.length := by
      rw [hs2]
    rw [hlen]
    simpa [newHistory] using hmap

/-- Witness for C5: appending a round-3 snapshot to the one-round history
fails with a SequenceError, appending round 2 succeeds, and the two-round
history's round indices are exactly 1, 2. -/
theorem add_iteration_contiguity_witness :
    histRound1.add_iteration (bugSnapshot 3 ["C"])
        = Except.error HistoryError.sequenceError ∧
    (∃ h2, histRound1.add_iteration (bugSnapshot 2 ["B"]) = Except.ok h2 ∧
      h2.snapshots = histRound1.snapshots ++ [bugSnapshot 2 ["B"]]) ∧
    histRound2.snapshots.map IterationSnapshot.iteration
        = List.range' 1 histRound2.snapshots.length :=
  ⟨add_iteration_contiguity.1 histRound1 (bugSnapshot 3 ["C"]) (by decide),
   add_iteration_contiguity.2.1 histRound1 (bugSnapshot 2 ["B"]) (by decide),
   add_iteration_contiguity.2.2 demoRequirement
     [bugSnapshot 1 ["A", "B"], bugSnapshot 2 ["B"]] histRound2 (by rfl)⟩

/-- Claim C2: after every add_iteration, fixed_issues holds exactly the
items of the earlier rounds' bug/improvement lists that do not reappear in
the latest round's raw bug/improvement lists (a fix is inferred by absence,
and an item that reappears verbatim is removed from fixed_issues and
restored to pending); concretely, round 1 bugs A,B followed by round 2 bugs
B leaves fixed_issues [A] and pending_bugs [B], and a round 3 reporting A
again — with B still unresolved, hence still reported — removes A from
fixed_issues and pending_bugs becomes [A, B]. -/
theorem fixed_issues_inferred_by_absence :
    (∀ (req : UserRequirement) (ss : List IterationSnapshot)
      (s : IterationSnapshot) (h : IterationHistory),
      buildHistory req (ss ++ [s]) = Except.ok h →
      ∀ x, x ∈ h.fixed_issues ↔
        ((∃ t ∈ ss, x ∈ t.bugs_found ∨ x ∈ t.improvements_needed) ∧
          x ∉ s.bugs_found ∧ x ∉ s.improvements_needed)) ∧
    Except.map (fun h : IterationHistory =>
        (h.fixed_issues, h.get_iteration_context.pending_bugs))
      (buildHistory demoRequirement
        [bugSnapshot 1 ["A", "B"], bugSnapshot 2 ["B"]])
      = Except.ok (["A"], ["B"]) ∧
    Except.map (fun h : IterationHistory =>
        (h.fixed_issues, h.get_iteration_context.pending_bugs))
      (buildHistory demoRequirement
        [bugSnapshot 1 ["A", "B"], bugSnapshot 2 ["B"],
         bugSnapshot 3 ["A", "B"]])
      = Except.ok ([], ["A", "B"]) := by
  refine ⟨?_, by rfl, by rfl⟩
  intro req ss s h hok
  obtain ⟨hm, hm1, hm2⟩ :=
    buildFrom_append_ok [s] ss (newHistory req) h hok
  have hadd : hm.add_iteration s = Except.ok h :=
    buildFrom_single_ok hm h s hm2
  obtain ⟨_, hrec⟩ := add_iteration_ok hm s h hadd
  obtain ⟨_, _, hbugs, himps, _, _⟩ :=
    buildFrom_ok ss (newHistory req) hm hm1
  intro x
  have hfix : x ∈ h.fixed_issues ↔
      (x ∈ hm.all_bugs ∨ x ∈ hm.all_improvements) ∧ x ∉ snapItems s := by
    rw [hrec]
    rw [mem_listDiff x (dedupExtend hm.all_bugs hm.all_improvements) (snapItems s)]
    rw [mem_dedupExtend x hm.all_improvements hm.all_bugs]
  rw [hfix]
  rw [hbugs x, himps x]
  have hnew : ∀ y : String, y ∈ (newHistory req).all_bugs ↔ False := by
    intro y
    simp [newHistory]
  have hnew2 : ∀ y : String, y ∈ (newHistory req).all_improvements ↔ False := by
    intro y
    simp [newHistory]
  rw [hnew x, hnew2 x]
  have hitems : x ∉ snapItems s ↔
      x ∉ s.bugs_found ∧ x ∉ s.improvements_needed := by
    simp [snapItems]
  rw [hitems]
  constructor
  · intro hx
    obtain ⟨hx1, hx2⟩ := hx
    refine ⟨?_, hx2⟩
    rcases hx1 with (hf | ⟨t, ht, hxt⟩) | (hf | ⟨t, ht, hxt⟩)
    · exact absurd hf id
    · exact ⟨t, ht, Or.inl hxt⟩
    · exact absurd hf id
    · exact ⟨t, ht, Or.inr hxt⟩
  · intro hx
    obtain ⟨⟨t, ht, hxt⟩, hx2⟩ := hx
    refine ⟨?_, hx2⟩
    rcases hxt with hxt | hxt
    · exact Or.inl (Or.inr ⟨t, ht, hxt⟩)
    · exact Or.inr (Or.inr ⟨t, ht, hxt⟩)

/-- Witness for C2 at the two-round scenario: A is in fixed_issues of the
history built from rounds with bugs A,B then B, matching the
absence-inference characterization. -/
theorem fixed_issues_inferred_by_absence_witness :
    "A" ∈ histRound2.fixed_issues ↔
      ((∃ t ∈ [bugSnapshot 1 ["A", "B"]],
          "A" ∈ t.bugs_found ∨ "A" ∈ t.improvements_needed) ∧
        "A" ∉ (bugSnapshot 2 ["B"]).bugs_found ∧
        "A" ∉ (bugSnapshot 2 ["B"]).improvements_needed) :=
  fixed_issues_inferred_by_absence.1 demoRequirement
    [bugSnapshot 1 ["A", "B"]] (bugSnapshot 2 ["B"]) histRound2 (by rfl) "A"

/-- Claim C6: the CHECK_STOP transition goes to DONE exactly when the
round's review set ready_for_delivery or the round index reached the
configured maximum; with max_iterations 3 and reviews never ready the loop
terminates after exactly round 3 in state DONE, not FAILED, and with
ready_for_delivery true at round 2 of an allowed 5 it terminates after
round 2. -/
theorem check_stop_convergence :
    (∀ (ready : Bool) (round maxIter : Nat),
      checkStop ready round maxIter = LoopState.done ↔
        (ready = true ∨ maxIter ≤ round)) ∧
    developLoop (fun _ => some false) 3 = (3, LoopState.done) ∧
    developLoop (fun r => some (decide (r = 2))) 5 = (2, LoopState.done) := by
  refine ⟨?_, by rfl, by rfl⟩
  intro ready round maxIter
  by_cases hc : ready = true ∨ maxIter ≤ round
  · simp [checkStop, hc]
  · simp [checkStop, hc]

/-- Claim C7 evaluation: develop returns a triple, but the call sites in
examples/simple_game.py and examples/custom_agents.py destructure its
result into only two names, so not every destructuring call site is
consistent with the arity — a two-name unpack of the triple fails. -/
theorem develop_call_site_arity_mismatch :
    developReturnArity = 3 ∧
    ("examples/simple_game.py:create_snake_game", 2) ∈ developCallSites ∧
    unpackOk developReturnArity 2 = false ∧
    ¬ (∀ c ∈ developCallSites, c.2 = developReturnArity) := by
  refine ⟨rfl, by decide, by decide, ?_⟩
  intro hall
  have h2 := hall ("examples/simple_game.py:create_snake_game", 2) (by decide)
  simp [developReturnArity] at h2

/-- Claim C8 evaluation: in the resume command a declined confirmation — a
clean user cancellation — exits with code 1 rather than 0, because the
typer.Exit(0) raised inside the try block is caught by the except Exception
handler (typer.Exit derives RuntimeError, hence Exception) and replaced by
typer.Exit(1); in the create command the same cancellation exits 0 because
there the Exit is raised outside the try block. -/
theorem resume_declined_cancellation_exit_code :
    (resumeCommand true ResumeScenario.declined).exitCode = 1 ∧
    createDeclinedExitCode = 0 ∧
    (resumeCommand true ResumeScenario.interrupted).exitCode = 0 ∧
    (resumeCommand true ResumeScenario.developError).exitCode = 1 ∧
    (resumeCommand true ResumeScenario.success).exitCode = 0 := by
  refine ⟨rfl, rfl, rfl, rfl, rfl⟩

/-- Claim C9: whenever the history path does not exist, the resume command
exits with code 1 and IterationHistory.load is never invoked — whatever
would have happened inside the try block — so the NotFoundError branch of
load is unreachable through this command. -/
theorem resume_missing_file_skips_load (sc : ResumeScenario) :
    (resumeCommand false sc).exitCode = 1 ∧
    (resumeCommand false sc).loadCalled = false := by
  cases sc
  · exact ⟨rfl, rfl⟩
  · exact ⟨rfl, rfl⟩
  · exact ⟨rfl, rfl⟩
  · exact ⟨rfl, rfl⟩

/-- Claim C10: the resume command passes the loaded history's own
original_requirement as the requirement argument of develop_game, so the
requirement-identity validation on resume is satisfied for every loaded
history and a ConsistencyError for requirement mismatch can never be raised
through this command. -/
theorem resume_requirement_identity (history : IterationHistory) :
    validateResumeRequirement (resumeRequirementArgument history) history
      = Except.ok () := by
  unfold validateResumeRequirement resumeRequirementArgument
  rw [if_pos rfl]
